import Mathlib

/-!
Verification of `selenium_util.py` (class `DriverBase`), a thin wrapper over a
browser driver.  The embedding models:

* matched DOM elements as `Elem` (a `get_attribute` map and a `text`);
* the value-level computation of `retorna_atributo_elemento`,
  `retorna_atributo_elementos`, `retorna_texto_elementos` and
  `retorna_numero_elementos`, taking as input the list of elements that the
  driver lookup (`busca_elementos` / `busca_elemento_visivel`) resolved, in
  document order;
* the page-readiness busy-wait `_aguarda_carregamento` over an oracle
  (`WaitEnv`) giving the value of the `n`-th `time.time()` call and the `n`-th
  `document.readyState` script result;
* the explicit wait `WebDriverWait.until` used by `busca_elemento_clicavel`,
  `busca_elemento_visivel`, `busca_elementos` and `troca_frame`, over an
  oracle giving the outcome of the wait condition at each poll;
* the order of side effects of every public method as a list of `Event`s
  (`waitReady` for a completed `_aguarda_carregamento`, `driverCall` for a
  command issued to the underlying driver).
-/

set_option autoImplicit false

universe u v w

/-- A matched DOM element: `attrs a` is the value of `get_attribute(a)`
(Python returns a string or `None`), `text` is the `.text` property. -/
structure Elem where
  attrs : String → Option String
  text : String

/-- Source `retorna_atributo_elemento` (lines 117-121): waits, resolves the
first visible match, evaluates `get_attribute(atributo)` on it, and falls off
the end of the function without a `return` statement, so Python returns
`None`.  The element argument is the one `busca_elemento_visivel` resolved. -/
def retorna_atributo_elemento (elemento : Elem) (atributo : String) : Option String :=
  let _valor := elemento.attrs atributo
  none

/-- Source `retorna_atributo_elementos` (lines 123-145): default condition is
the constant-true function, default format is the identity; then the list
comprehension `[ff(e.get_attribute(a)) for e in elementos if fc(e.get_attribute(a))]`.
`elementos` is the list `busca_elementos` resolved, in document order. -/
def retorna_atributo_elementos (elementos : List Elem) (atributo : String)
    (funcao_condicao : Option (Option String → Bool))
    (funcao_formato : Option (Option String → Option String)) : List (Option String) :=
  let fc := match funcao_condicao with
    | none => fun _ => true
    | some f => f
  let ff := match funcao_formato with
    | none => fun valor => valor
    | some f => f
  (elementos.filter (fun e => fc (e.attrs atributo))).map (fun e => ff (e.attrs atributo))

/-- Source `retorna_texto_elementos` (lines 165-187): same shape as
`retorna_atributo_elementos` with `e.text` in place of `e.get_attribute(a)`. -/
def retorna_texto_elementos (elementos : List Elem)
    (funcao_condicao : Option (String → Bool))
    (funcao_formato : Option (String → String)) : List String :=
  let fc := match funcao_condicao with
    | none => fun _ => true
    | some f => f
  let ff := match funcao_formato with
    | none => fun texto => texto
    | some f => f
  (elementos.filter (fun e => fc e.text)).map (fun e => ff e.text)

/-- Source `retorna_numero_elementos` (lines 147-158): if an attribute is
given, the length of `retorna_atributo_elementos` (format function left at its
default); otherwise the length of the list `busca_elementos` resolved. -/
def retorna_numero_elementos (elementos : List Elem) (atributo : Option String)
    (funcao_condicao : Option (Option String → Bool)) : Nat :=
  match atributo with
  | some a => (retorna_atributo_elementos elementos a funcao_condicao none).length
  | none => elementos.length

section ListHelpers

variable {α : Type u} {β : Type v} {γ : Type w}

/-- Filter-then-map over a projected value list equals the comprehension shape
used in the source. -/
theorem map_filter_proj (g : α → β) (p : β → Bool) (f : β → γ) :
    ∀ l : List α,
      ((l.map g).filter p).map f = ((l.filter (fun x => p (g x))).map (fun x => f (g x)))
  | [] => rfl
  | x :: l => by
    by_cases h : p (g x) = true
    · simp [List.filter_cons, h, map_filter_proj g p f l]
    · simp only [Bool.not_eq_true] at h
      simp [List.filter_cons, h, map_filter_proj g p f l]

end ListHelpers

/-- Unfolds `retorna_atributo_elementos` with an explicit predicate and the
default formatter to a plain filter over the per-element attribute values. -/
theorem retorna_atributo_elementos_eq_filter (elementos : List Elem) (a : String)
    (p : Option String → Bool) :
    retorna_atributo_elementos elementos a (some p) none
      = (elementos.map (fun e => e.attrs a)).filter p := by
  have hid : (elementos.map (fun e => e.attrs a)).filter p
      = ((elementos.map (fun e => e.attrs a)).filter p).map (fun v => v) := by simp
  rw [hid, map_filter_proj (fun e : Elem => e.attrs a) p (fun v => v)]
  rfl

/-- Unfolds `retorna_texto_elementos` with an explicit predicate and the
default formatter to a plain filter over the per-element texts. -/
theorem retorna_texto_elementos_eq_filter (elementos : List Elem) (p : String → Bool) :
    retorna_texto_elementos elementos (some p) none
      = (elementos.map (fun e => e.text)).filter p := by
  have hid : (elementos.map (fun e => e.text)).filter p
      = ((elementos.map (fun e => e.text)).filter p).map (fun v => v) := by simp
  rw [hid, map_filter_proj (fun e : Elem => e.text) p (fun v => v)]
  rfl

/-- C3: for every matched-element list with per-element values `vs` (attribute
values resp. texts), explicit predicate `p` and formatter `f`,
`retorna_atributo_elementos` / `retorna_texto_elementos` return exactly
`[f v for v in vs if p v]`; with the defaults they return exactly the raw
per-element values in document order. -/
theorem C3_filter_map_semantics (elementos : List Elem) (a : String)
    (p : Option String → Bool) (f : Option String → Option String)
    (pt : String → Bool) (ft : String → String) :
    retorna_atributo_elementos elementos a (some p) (some f)
        = ((elementos.map (fun e => e.attrs a)).filter p).map f
    ∧ retorna_atributo_elementos elementos a none none
        = elementos.map (fun e => e.attrs a)
    ∧ retorna_texto_elementos elementos (some pt) (some ft)
        = ((elementos.map (fun e => e.text)).filter pt).map ft
    ∧ retorna_texto_elementos elementos none none
        = elementos.map (fun e => e.text) := by
  refine ⟨?_, ?_, ?_, ?_⟩
  · rw [retorna_atributo_elementos, map_filter_proj (fun e : Elem => e.attrs a) p f]
  · simp [retorna_atributo_elementos, List.filter_true]
  · rw [retorna_texto_elementos, map_filter_proj (fun e : Elem => e.text) pt ft]
  · simp [retorna_texto_elementos, List.filter_true]

/-- C9: with a predicate (default formatter), the result of
`retorna_atributo_elementos` / `retorna_texto_elementos` is an order-preserving
subsequence of the per-element values in document order, and it contains a
value exactly when that value occurs among the per-element values and the
predicate holds for it. -/
theorem C9_predicate_subsequence (elementos : List Elem) (a : String)
    (p : Option String → Bool) (pt : String → Bool) :
    List.Sublist (retorna_atributo_elementos elementos a (some p) none)
        (elementos.map (fun e => e.attrs a))
    ∧ (∀ v, v ∈ retorna_atributo_elementos elementos a (some p) none
        ↔ v ∈ elementos.map (fun e => e.attrs a) ∧ p v = true)
    ∧ List.Sublist (retorna_texto_elementos elementos (some pt) none)
        (elementos.map (fun e => e.text))
    ∧ (∀ t, t ∈ retorna_texto_elementos elementos (some pt) none
        ↔ t ∈ elementos.map (fun e => e.text) ∧ pt t = true) := by
  refine ⟨?_, ?_, ?_, ?_⟩
  · rw [retorna_atributo_elementos_eq_filter]
    exact List.filter_sublist _
  · intro v
    rw [retorna_atributo_elementos_eq_filter]
    exact List.mem_filter
  · rw [retorna_texto_elementos_eq_filter]
    exact List.filter_sublist _
  · intro t
    rw [retorna_texto_elementos_eq_filter]
    exact List.mem_filter

/-- C7: with an attribute, `retorna_numero_elementos` is the length of the
`retorna_atributo_elementos` result for that attribute and predicate (the
number of per-element values passing the predicate); without an attribute it
is the number of matched elements, for every predicate. -/
theorem C7_count_semantics (elementos : List Elem) (a : String)
    (p : Option String → Bool) :
    retorna_numero_elementos elementos (some a) (some p)
        = (retorna_atributo_elementos elementos a (some p) none).length
    ∧ retorna_numero_elementos elementos (some a) (some p)
        = ((elementos.map (fun e => e.attrs a)).filter p).length
    ∧ retorna_numero_elementos elementos (some a) none = elementos.length
    ∧ retorna_numero_elementos elementos none (some p) = elementos.length
    ∧ retorna_numero_elementos elementos none none = elementos.length := by
  refine ⟨rfl, ?_, ?_, rfl, rfl⟩
  · rw [retorna_numero_elementos, retorna_atributo_elementos_eq_filter]
  · simp [retorna_numero_elementos, retorna_atributo_elementos, List.filter_true]

/-- Concrete element used to exhibit the `retorna_atributo_elemento` defect:
its `href` attribute has the value `"x"`. -/
def elementoHref : Elem where
  attrs := fun a => if a = "href" then some "x" else none
  text := ""

/-- C1: the code contradicts the claim (and its own docstring).  On an element
whose `href` attribute is `"x"`, `get_attribute` yields `some "x"`, yet
`retorna_atributo_elemento` returns `none` (Python `None`), because the method
body computes the value and falls off the end without returning it. -/
theorem C1_discards_attribute :
    elementoHref.attrs "href" = some "x"
    ∧ retorna_atributo_elemento elementoHref "href" = none
    ∧ retorna_atributo_elemento elementoHref "href" ≠ elementoHref.attrs "href" := by
  refine ⟨rfl, rfl, ?_⟩
  intro h
  simp [retorna_atributo_elemento, elementoHref] at h

/-- Oracle for `_aguarda_carregamento`: `clock n` is the value returned by the
`n`-th call to `time.time()` (the call made for `tempo_inicial` is index `0`,
the call made at the `i`-th loop check is index `i`); `ready n` is the string
returned by the `n`-th `execute_script('return document.readyState;')` call
(the call before the loop is index `0`, the call in the `i`-th loop body is
index `i`). -/
structure WaitEnv where
  clock : Nat → Nat
  ready : Nat → String

/-- ASCII lowering of one character, as Python `str.lower()` does on the
ASCII `readyState` values (kernel-reducible, unlike `Char.toLower`). -/
def charMinuscula (c : Char) : Char :=
  if 65 ≤ c.toNat ∧ c.toNat ≤ 90 then Char.ofNat (c.toNat + 32) else c

/-- ASCII lowering of a string, modelling Python `str.lower()` on the
`document.readyState` values. -/
def minusculas (s : String) : String :=
  String.mk (s.data.map charMinuscula)

/-- Source line 34/37: `self.execute_script(js_script).lower() != 'complete'`,
the value of the local variable `carregando` produced by the `k`-th script
call. -/
def carregando (env : WaitEnv) (k : Nat) : Bool :=
  minusculas (env.ready k) != "complete"

/-- The `while` loop of `_aguarda_carregamento` (line 36-37): at check `i` the
condition reads `time.time()` (clock index `i`) and the variable `carregando`
set by script read `i - 1`; the body refreshes `carregando` (script read `i`)
and loops.  `fuel` bounds the number of iterations so the function stays
total; `some j` means the loop exited at check `j`, `none` means the fuel ran
out before the loop exited. -/
def aguardaFrom (env : WaitEnv) (limite : Nat) : Nat → Nat → Option Nat
  | i, 0 =>
    if env.clock i < limite ∧ carregando env (i - 1) = true then none
    else some i
  | i, fuel + 1 =>
    if env.clock i < limite ∧ carregando env (i - 1) = true then
      aguardaFrom env limite (i + 1) fuel
    else some i

/-- Source `_aguarda_carregamento` (lines 29-37): `tempo_inicial` is clock
read `0`, `tempo_limite = tempo_inicial + tempo_espera`, `carregando` is set
from script read `0`, then the busy-wait loop runs with no sleep between
polls.  Returns the index of the check at which the loop exited. -/
def aguarda_carregamento (env : WaitEnv) (tempo_espera : Nat) (fuel : Nat) : Option Nat :=
  aguardaFrom env (env.clock 0 + tempo_espera) 1 fuel

/-- Exit characterisation of the busy-wait loop: if it exits at check `j`,
then the exit condition fails at `j` and held at every earlier check. -/
theorem aguardaFrom_exit (env : WaitEnv) (limite : Nat) :
    ∀ fuel i j, aguardaFrom env limite i fuel = some j →
      i ≤ j
      ∧ ¬(env.clock j < limite ∧ carregando env (j - 1) = true)
      ∧ ∀ k, i ≤ k → k < j → env.clock k < limite ∧ carregando env (k - 1) = true := by
  intro fuel
  induction fuel with
  | zero =>
    intro i j h
    rw [aguardaFrom] at h
    by_cases hc : env.clock i < limite ∧ carregando env (i - 1) = true
    · simp [hc] at h
    · simp [hc] at h
      subst h
      exact ⟨Nat.le_refl i, hc, fun k hik hki => absurd (Nat.lt_of_le_of_lt hik hki) (Nat.lt_irrefl i)⟩
  | succ fuel ih =>
    intro i j h
    rw [aguardaFrom] at h
    by_cases hc : env.clock i < limite ∧ carregando env (i - 1) = true
    · simp [hc] at h
      obtain ⟨hij, hexit, hcont⟩ := ih (i + 1) j h
      refine ⟨Nat.le_trans (Nat.le_succ i) hij, hexit, ?_⟩
      intro k hik hkj
      rcases Nat.eq_or_lt_of_le hik with hik' | hik'
      · exact hik' ▸ hc
      · exact hcont k hik' hkj
    · simp [hc] at h
      subst h
      exact ⟨Nat.le_refl i, hc, fun k hik hki => absurd (Nat.lt_of_le_of_lt hik hki) (Nat.lt_irrefl i)⟩

/-- Termination of the busy-wait loop: when each `time.time()` call returns a
strictly larger value than the previous one and the fuel covers the remaining
window, the loop exits. -/
theorem aguardaFrom_terminates (env : WaitEnv) (limite : Nat)
    (hmono : ∀ k, env.clock k + 1 ≤ env.clock (k + 1)) :
    ∀ fuel i, limite ≤ env.clock i + fuel →
      ∃ j, aguardaFrom env limite i fuel = some j := by
  intro fuel
  induction fuel with
  | zero =>
    intro i hfuel
    refine ⟨i, ?_⟩
    rw [aguardaFrom]
    have : ¬(env.clock i < limite ∧ carregando env (i - 1) = true) := by
      intro hc
      exact absurd (Nat.lt_of_lt_of_le hc.1 hfuel) (by omega)
    simp [this]
  | succ fuel ih =>
    intro i hfuel
    by_cases hc : env.clock i < limite ∧ carregando env (i - 1) = true
    · have hstep : limite ≤ env.clock (i + 1) + fuel := by
        have := hmono i
        omega
      obtain ⟨j, hj⟩ := ih (i + 1) hstep
      refine ⟨j, ?_⟩
      rw [aguardaFrom]
      simp [hc]
      exact hj
    · refine ⟨i, ?_⟩
      rw [aguardaFrom]
      simp [hc]

/-- Outcome of a wrapped driver call: either a `TimeoutException` raised by
`WebDriverWait.until` when the deadline expires, or some other driver-level
failure propagated unmodified (carried as its message). -/
inductive SelErr where
  | timeout
  | driver (msg : String)
deriving DecidableEq

/-- `WebDriverWait.until` (used on lines 66, 72, 79, 196): polls the expected
condition; `cond i` is the outcome of the condition at poll `i` — `ok (some a)`
when the condition holds with value `a`, `ok none` when it does not hold yet,
`error e` when the driver fails at that poll.  Returns the first truthy value,
propagates a driver failure, and raises `SelErr.timeout` once the `polls`
checks of the window are exhausted. -/
def untilFrom {α : Type u} (cond : Nat → Except String (Option α)) : Nat → Nat → Except SelErr α
  | _, 0 => Except.error SelErr.timeout
  | i, n + 1 =>
    match cond i with
    | Except.error e => Except.error (SelErr.driver e)
    | Except.ok (some a) => Except.ok a
    | Except.ok none => untilFrom cond (i + 1) n

/-- When no poll fails at driver level, the wait times out exactly when the
condition holds at none of the polls in the window. -/
theorem untilFrom_timeout_iff {α : Type u} (cond : Nat → Except String (Option α))
    (hne : ∀ k e, cond k ≠ Except.error e) :
    ∀ n i, (untilFrom cond i n = Except.error SelErr.timeout
      ↔ ∀ k, i ≤ k → k < i + n → cond k = Except.ok none) := by
  intro n
  induction n with
  | zero =>
    intro i
    constructor
    · intro _ k hik hki
      omega
    · intro _
      rfl
  | succ n ih =>
    intro i
    rw [untilFrom]
    rcases h : cond i with e | v
    · exact absurd h (hne i e)
    · rcases v with _ | a
      · simp only []
        rw [ih (i + 1)]
        constructor
        · intro hall k hik hki
          rcases Nat.eq_or_lt_of_le hik with hik' | hik'
          · exact hik' ▸ h
          · exact hall k hik' (by omega)
        · intro hall k hik hki
          exact hall k (by omega) (by omega)
      · simp only []
        constructor
        · intro hcontra
          exact absurd hcontra (by simp)
        · intro hall
          have := hall i (Nat.le_refl i) (by omega)
          rw [h] at this
          exact absurd this (by simp)

/-- If the condition first holds at poll `j` inside the window, the wait
returns that value. -/
theorem untilFrom_success {α : Type u} (cond : Nat → Except String (Option α)) :
    ∀ n i j a, i ≤ j → j < i + n →
      (∀ k, i ≤ k → k < j → cond k = Except.ok none) →
      cond j = Except.ok (some a) →
      untilFrom cond i n = Except.ok a := by
  intro n
  induction n with
  | zero =>
    intro i j a hij hji
    omega
  | succ n ih =>
    intro i j a hij hji hbefore hj
    rw [untilFrom]
    rcases Nat.eq_or_lt_of_le hij with hij' | hij'
    · rw [← hij'] at hj
      rw [hj]
    · have hi : cond i = Except.ok none := hbefore i (Nat.le_refl i) hij'
      rw [hi]
      exact ih (i + 1) j a hij' (by omega) (fun k hik hkj => hbefore k (by omega) hkj) hj

/-- If the condition holds at no poll before `j` and the driver fails at poll
`j` inside the window, the failure propagates unmodified. -/
theorem untilFrom_propagate {α : Type u} (cond : Nat → Except String (Option α)) :
    ∀ n i j e, i ≤ j → j < i + n →
      (∀ k, i ≤ k → k < j → cond k = Except.ok none) →
      cond j = Except.error e →
      untilFrom cond i n = Except.error (SelErr.driver e) := by
  intro n
  induction n with
  | zero =>
    intro i j e hij hji
    omega
  | succ n ih =>
    intro i j e hij hji hbefore hj
    rw [untilFrom]
    rcases Nat.eq_or_lt_of_le hij with hij' | hij'
    · rw [← hij'] at hj
      rw [hj]
    · have hi : cond i = Except.ok none := hbefore i (Nat.le_refl i) hij'
      rw [hi]
      exact ih (i + 1) j e hij' (by omega) (fun k hik hkj => hbefore k (by omega) hkj) hj

/-- Source `busca_elemento_clicavel` (lines 63-67): waits for page readiness,
then `wait.until(element_to_be_clickable(...))`.  `condicao i` is the outcome
of the clickability condition at poll `i`; `none` as the overall result means
the readiness wait's fuel ran out. -/
def busca_elemento_clicavel (env : WaitEnv) (tempo_espera fuel : Nat)
    (condicao : Nat → Except String (Option Elem)) (polls : Nat) :
    Option (Except SelErr Elem) :=
  (aguarda_carregamento env tempo_espera fuel).map (fun _ => untilFrom condicao 0 polls)

/-- Source `busca_elemento_visivel` (lines 69-74): waits for page readiness,
then `wait.until(visibility_of_element_located(...))`. -/
def busca_elemento_visivel (env : WaitEnv) (tempo_espera fuel : Nat)
    (condicao : Nat → Except String (Option Elem)) (polls : Nat) :
    Option (Except SelErr Elem) :=
  (aguarda_carregamento env tempo_espera fuel).map (fun _ => untilFrom condicao 0 polls)

/-- Source `busca_elementos` (lines 76-81): waits for page readiness, then
`wait.until(presence_of_all_elements_located(...))`; the condition's truthy
value is the non-empty list of matched elements. -/
def busca_elementos (env : WaitEnv) (tempo_espera fuel : Nat)
    (condicao : Nat → Except String (Option (List Elem))) (polls : Nat) :
    Option (Except SelErr (List Elem)) :=
  (aguarda_carregamento env tempo_espera fuel).map (fun _ => untilFrom condicao 0 polls)

/-- Entry-point termination: with a strictly advancing clock and fuel covering
the timeout, `_aguarda_carregamento` returns normally. -/
theorem aguarda_carregamento_terminates (env : WaitEnv) (tempo_espera fuel : Nat)
    (hmono : ∀ k, env.clock k + 1 ≤ env.clock (k + 1)) (hfuel : tempo_espera ≤ fuel) :
    ∃ j, aguarda_carregamento env tempo_espera fuel = some j := by
  apply aguardaFrom_terminates env (env.clock 0 + tempo_espera) hmono fuel 1
  have h1 : env.clock 0 + 1 ≤ env.clock 1 := by simpa using hmono 0
  omega

/-- Specialisation of `untilFrom_timeout_iff` to the wait's entry point. -/
theorem untilW_timeout_iff {α : Type u} (cond : Nat → Except String (Option α))
    (polls : Nat) (hne : ∀ k e, cond k ≠ Except.error e) :
    untilFrom cond 0 polls = Except.error SelErr.timeout
      ↔ ∀ k, k < polls → cond k = Except.ok none := by
  rw [untilFrom_timeout_iff cond hne polls 0]
  constructor
  · intro h k hk
    exact h k (Nat.zero_le k) (by omega)
  · intro h k _ hk
    exact h k (by omega)

/-- Specialisation of `untilFrom_success` to the wait's entry point. -/
theorem untilW_success {α : Type u} (cond : Nat → Except String (Option α))
    (polls j : Nat) (a : α) (hj : j < polls)
    (hbefore : ∀ k, k < j → cond k = Except.ok none)
    (h : cond j = Except.ok (some a)) :
    untilFrom cond 0 polls = Except.ok a :=
  untilFrom_success cond polls 0 j a (Nat.zero_le j) (by omega)
    (fun k _ hk => hbefore k hk) h

/-- Specialisation of `untilFrom_propagate` to the wait's entry point. -/
theorem untilW_propagate {α : Type u} (cond : Nat → Except String (Option α))
    (polls j : Nat) (e : String) (hj : j < polls)
    (hbefore : ∀ k, k < j → cond k = Except.ok none)
    (h : cond j = Except.error e) :
    untilFrom cond 0 polls = Except.error (SelErr.driver e) :=
  untilFrom_propagate cond polls 0 j e (Nat.zero_le j) (by omega)
    (fun k _ hk => hbefore k hk) h

/-- C5: each of `busca_elemento_clicavel`, `busca_elemento_visivel` and
`busca_elementos` raises `TimeoutError` exactly when its wait condition holds
at no poll of the window (given no other driver failure occurs); if the
condition first holds at some poll of the window the matched element(s) are
returned; and a driver-level failure at a poll propagates to the caller
unmodified. -/
theorem C5_lookup_wait_semantics (env : WaitEnv) (tempo_espera fuel polls : Nat)
    (condC condV : Nat → Except String (Option Elem))
    (condA : Nat → Except String (Option (List Elem)))
    (hmono : ∀ k, env.clock k + 1 ≤ env.clock (k + 1))
    (hfuel : tempo_espera ≤ fuel) :
    ((∀ k e, condC k ≠ Except.error e) →
      (busca_elemento_clicavel env tempo_espera fuel condC polls
          = some (Except.error SelErr.timeout)
        ↔ ∀ k, k < polls → condC k = Except.ok none))
    ∧ (∀ j x, j < polls → (∀ k, k < j → condC k = Except.ok none) →
        condC j = Except.ok (some x) →
        busca_elemento_clicavel env tempo_espera fuel condC polls = some (Except.ok x))
    ∧ (∀ j e, j < polls → (∀ k, k < j → condC k = Except.ok none) →
        condC j = Except.error e →
        busca_elemento_clicavel env tempo_espera fuel condC polls
          = some (Except.error (SelErr.driver e)))
    ∧ ((∀ k e, condV k ≠ Except.error e) →
      (busca_elemento_visivel env tempo_espera fuel condV polls
          = some (Except.error SelErr.timeout)
        ↔ ∀ k, k < polls → condV k = Except.ok none))
    ∧ (∀ j x, j < polls → (∀ k, k < j → condV k = Except.ok none) →
        condV j = Except.ok (some x) →
        busca_elemento_visivel env tempo_espera fuel condV polls = some (Except.ok x))
    ∧ (∀ j e, j < polls → (∀ k, k < j → condV k = Except.ok none) →
        condV j = Except.error e →
        busca_elemento_visivel env tempo_espera fuel condV polls
          = some (Except.error (SelErr.driver e)))
    ∧ ((∀ k e, condA k ≠ Except.error e) →
      (busca_elementos env tempo_espera fuel condA polls
          = some (Except.error SelErr.timeout)
        ↔ ∀ k, k < polls → condA k = Except.ok none))
    ∧ (∀ j xs, j < polls → (∀ k, k < j → condA k = Except.ok none) →
        condA j = Except.ok (some xs) →
        busca_elementos env tempo_espera fuel condA polls = some (Except.ok xs))
    ∧ (∀ j e, j < polls → (∀ k, k < j → condA k = Except.ok none) →
        condA j = Except.error e →
        busca_elementos env tempo_espera fuel condA polls
          = some (Except.error (SelErr.driver e))) := by
  obtain ⟨j0, hj0⟩ := aguarda_carregamento_terminates env tempo_espera fuel hmono hfuel
  have hC : busca_elemento_clicavel env tempo_espera fuel condC polls
      = some (untilFrom condC 0 polls) := by
    rw [busca_elemento_clicavel, hj0]
    rfl
  have hV : busca_elemento_visivel env tempo_espera fuel condV polls
      = some (untilFrom condV 0 polls) := by
    rw [busca_elemento_visivel, hj0]
    rfl
  have hA : busca_elementos env tempo_espera fuel condA polls
      = some (untilFrom condA 0 polls) := by
    rw [busca_elementos, hj0]
    rfl
  refine ⟨?_, ?_, ?_, ?_, ?_, ?_, ?_, ?_, ?_⟩
  · intro hne
    rw [hC]
    simp only [Option.some.injEq]
    exact untilW_timeout_iff condC polls hne
  · intro j x hj hbefore h
    rw [hC, untilW_success condC polls j x hj hbefore h]
  · intro j e hj hbefore h
    rw [hC, untilW_propagate condC polls j e hj hbefore h]
  · intro hne
    rw [hV]
    simp only [Option.some.injEq]
    exact untilW_timeout_iff condV polls hne
  · intro j x hj hbefore h
    rw [hV, untilW_success condV polls j x hj hbefore h]
  · intro j e hj hbefore h
    rw [hV, untilW_propagate condV polls j e hj hbefore h]
  · intro hne
    rw [hA]
    simp only [Option.some.injEq]
    exact untilW_timeout_iff condA polls hne
  · intro j xs hj hbefore h
    rw [hA, untilW_success condA polls j xs hj hbefore h]
  · intro j e hj hbefore h
    rw [hA, untilW_propagate condA polls j e hj hbefore h]

/-- Clock advancing one unit per read, page never ready: `readyState` is
always `"loading"`. -/
def envNuncaCompleta : WaitEnv where
  clock := fun n => n
  ready := fun _ => "loading"

/-- Clock advancing one unit per read, page ready from the start. -/
def envCompleta : WaitEnv where
  clock := fun n => n
  ready := fun _ => "complete"

/-- Element used in concrete witnesses. -/
def elementoW : Elem where
  attrs := fun _ => none
  text := "ok"

/-- C5 witness: a clickability condition that already holds at poll 0 makes
`busca_elemento_clicavel` return the element. -/
theorem C5_lookup_wait_semantics_witness :
    busca_elemento_clicavel envCompleta 0 1 (fun _ => Except.ok (some elementoW)) 1
      = some (Except.ok elementoW) :=
  (C5_lookup_wait_semantics envCompleta 0 1 1
      (fun _ => Except.ok (some elementoW)) (fun _ => Except.ok (some elementoW))
      (fun _ => Except.ok none)
      (fun k => Nat.le_refl (k + 1)) (Nat.zero_le 1)).2.1
    0 elementoW (by omega) (fun k hk => absurd hk (Nat.not_lt_zero k)) rfl

/-- C4: when the readiness signal stays different from `"complete"` for the
whole window, `_aguarda_carregamento` still returns normally (its model has no
failure outcome to raise), doing so only once the deadline has passed, and the
enclosing operation then proceeds to issue its driver call — the expired
readiness wait leaves no trace in the operation's result. -/
theorem C4_readiness_timeout_tolerated (env : WaitEnv) (tempo_espera fuel polls : Nat)
    (condicao : Nat → Except String (Option Elem))
    (hmono : ∀ k, env.clock k + 1 ≤ env.clock (k + 1))
    (hnc : ∀ k, carregando env k = true)
    (hfuel : tempo_espera ≤ fuel) :
    (∃ j, aguarda_carregamento env tempo_espera fuel = some j
      ∧ env.clock 0 + tempo_espera ≤ env.clock j)
    ∧ busca_elemento_clicavel env tempo_espera fuel condicao polls
        = some (untilFrom condicao 0 polls) := by
  obtain ⟨j, hj⟩ := aguarda_carregamento_terminates env tempo_espera fuel hmono hfuel
  obtain ⟨h1j, hexit, _⟩ := aguardaFrom_exit env (env.clock 0 + tempo_espera) fuel 1 j hj
  refine ⟨⟨j, hj, ?_⟩, ?_⟩
  · by_contra hlt
    exact hexit ⟨by omega, hnc (j - 1)⟩
  · rw [busca_elemento_clicavel, hj]
    rfl

/-- C4 witness: with `readyState` forever `"loading"` and timeout 2, the wait
returns normally at or after the deadline and the lookup still issues its
driver wait. -/
theorem C4_readiness_timeout_tolerated_witness :
    (∃ j, aguarda_carregamento envNuncaCompleta 2 2 = some j
      ∧ envNuncaCompleta.clock 0 + 2 ≤ envNuncaCompleta.clock j)
    ∧ busca_elemento_clicavel envNuncaCompleta 2 2 (fun _ => Except.ok none) 1
        = some (untilFrom (fun _ => Except.ok none) 0 1) :=
  C4_readiness_timeout_tolerated envNuncaCompleta 2 2 1 (fun _ => Except.ok none)
    (fun k => Nat.le_refl (k + 1)) (fun _ => rfl) (Nat.le_refl 2)

/-- C6 counterexample: with `clock n = n`, timeout 1 and a signal that never
reports `"complete"`, the loop exits at check 1, where the current time equals
`start + timeout` without exceeding it and the last polled signal is not
`"complete"` — so "exits exactly when the signal reports complete or the
current time exceeds start + timeout" is false for this driver. -/
theorem C6_boundary_counterexample :
    aguarda_carregamento envNuncaCompleta 1 5 = some 1
    ∧ carregando envNuncaCompleta 0 = true
    ∧ ¬(envNuncaCompleta.clock 0 + 1 < envNuncaCompleta.clock 1) := by
  refine ⟨rfl, rfl, by decide⟩

/-- C6 (amended): the readiness wait is the busy-wait loop `aguardaFrom` with
no sleep between polls; it exits exactly when the polled signal reports
`"complete"` or the current time is at least `start + timeout` (the source
loop guard is `time.time() < tempo_limite`, so the loop already stops when the
clock reaches the deadline, not only strictly past it); consequently, against
a driver whose signal never becomes `"complete"`, control returns only once at
least the configured timeout of wall-clock time has elapsed since the start of
the wait. -/
theorem C6_busy_wait_exit (env : WaitEnv) (tempo_espera fuel j : Nat)
    (h : aguarda_carregamento env tempo_espera fuel = some j) :
    1 ≤ j
    ∧ (env.clock 0 + tempo_espera ≤ env.clock j ∨ carregando env (j - 1) = false)
    ∧ (∀ k, 1 ≤ k → k < j →
        env.clock k < env.clock 0 + tempo_espera ∧ carregando env (k - 1) = true)
    ∧ ((∀ k, carregando env k = true) → env.clock 0 + tempo_espera ≤ env.clock j) := by
  obtain ⟨h1j, hexit, hcont⟩ := aguardaFrom_exit env (env.clock 0 + tempo_espera) fuel 1 j h
  refine ⟨h1j, ?_, hcont, ?_⟩
  · by_cases hq : env.clock j < env.clock 0 + tempo_espera
    · right
      by_contra hc
      simp only [Bool.not_eq_false] at hc
      exact hexit ⟨hq, hc⟩
    · left
      omega
  · intro hnc
    by_contra hlt
    exact hexit ⟨by omega, hnc (j - 1)⟩

/-- C6 witness: with the signal `"complete"` from the start and timeout 3, the
loop exits at check 1 because the signal is complete, before the deadline. -/
theorem C6_busy_wait_exit_witness :
    1 ≤ 1
    ∧ (envCompleta.clock 0 + 3 ≤ envCompleta.clock 1 ∨ carregando envCompleta 0 = false)
    ∧ (∀ k, 1 ≤ k → k < 1 →
        envCompleta.clock k < envCompleta.clock 0 + 3 ∧ carregando envCompleta (k - 1) = true)
    ∧ ((∀ k, carregando envCompleta k = true) → envCompleta.clock 0 + 3 ≤ envCompleta.clock 1) :=
  C6_busy_wait_exit envCompleta 3 5 1 rfl

/-- Outcome, at poll `i`, of the `frame_to_be_available_and_switch_to_it`
condition used on line 196: truthy exactly when `frame_disponivel i`. -/
def condFrame (frame_disponivel : Nat → Bool) : Nat → Except String (Option Unit) :=
  fun i => if frame_disponivel i then Except.ok (some ()) else Except.ok none

/-- Source `troca_frame` (lines 189-198): after the readiness wait, if either
argument is `None` the driver switches back to the default (top-level)
content; otherwise `wait.until(frame_to_be_available_and_switch_to_it(...))`.
The driver's frame context is the list of frames entered from the top-level
document (`[]` is the top level); `frame_disponivel i` tells whether the frame
is available at poll `i` of the explicit wait.  Returns the context after the
call, or the `TimeoutException` of the wait. -/
def troca_frame (tipo_seletor seletor_frame : Option String)
    (frame_disponivel : Nat → Bool) (polls : Nat)
    (contexto : List (String × String)) : Except SelErr (List (String × String)) :=
  match tipo_seletor, seletor_frame with
  | some ts, some sf =>
    match untilFrom (condFrame frame_disponivel) 0 polls with
    | Except.ok _ => Except.ok (contexto ++ [(ts, sf)])
    | Except.error e => Except.error e
  | _, _ => Except.ok []

/-- C8: with no selector, `troca_frame` returns to the top-level document
whatever the current frame depth; with a selector (kind and frame string), it
times out exactly when the frame is available at no poll of the window, and
otherwise switches into the frame once it first becomes available. -/
theorem C8_troca_frame_semantics (contexto : List (String × String))
    (tipo seletor : String) (frame_disponivel : Nat → Bool) (polls : Nat) :
    troca_frame none none frame_disponivel polls contexto = Except.ok []
    ∧ (troca_frame (some tipo) (some seletor) frame_disponivel polls contexto
        = Except.error SelErr.timeout
      ↔ ∀ i, i < polls → frame_disponivel i = false)
    ∧ (∀ j, j < polls → (∀ i, i < j → frame_disponivel i = false) →
        frame_disponivel j = true →
        troca_frame (some tipo) (some seletor) frame_disponivel polls contexto
          = Except.ok (contexto ++ [(tipo, seletor)])) := by
  have hne : ∀ k e, condFrame frame_disponivel k ≠ Except.error e := by
    intro k e
    by_cases h : frame_disponivel k = true <;> simp [condFrame, h]
  refine ⟨rfl, ?_, ?_⟩
  · have hmain : troca_frame (some tipo) (some seletor) frame_disponivel polls contexto
        = Except.error SelErr.timeout
        ↔ untilFrom (condFrame frame_disponivel) 0 polls
          = Except.error SelErr.timeout := by
      rcases hu : untilFrom (condFrame frame_disponivel) 0 polls with e | u
      · simp [troca_frame, hu]
      · simp [troca_frame, hu]
    rw [hmain, untilW_timeout_iff _ polls hne]
    constructor
    · intro h i hi
      have hthis := h i hi
      rw [condFrame] at hthis
      by_cases hd : frame_disponivel i = true
      · rw [if_pos hd] at hthis
        exact absurd hthis (by simp)
      · simpa using hd
    · intro h i hi
      rw [condFrame]
      rw [h i hi]
      simp
  · intro j hj hbefore hdisp
    have hs : untilFrom (condFrame frame_disponivel) 0 polls = Except.ok () := by
      apply untilW_success _ polls j () hj
      · intro k hk
        simp [condFrame, hbefore k hk]
      · simp [condFrame, hdisp]
    simp [troca_frame, hs]

/-- C8 witness: from inside a frame, a frame available at poll 0 is switched
into; the context grows by the named frame. -/
theorem C8_troca_frame_semantics_witness :
    troca_frame (some "id") (some "menu") (fun _ => true) 1 [("css", "outer")]
      = Except.ok ([("css", "outer")] ++ [("id", "menu")]) :=
  (C8_troca_frame_semantics [("css", "outer")] "id" "menu" (fun _ => true) 1).2.2
    0 (by omega) (fun i hi => absurd hi (Nat.not_lt_zero i)) rfl

/-- C10: `troca_frame` resets to the default (top-level) content whenever
either argument is `None` — in particular with a selector kind but no frame
selector — and in those cases the result does not consult the
frame-availability wait at all (it is the same for every availability oracle
and window, and never a `TimeoutError`). -/
theorem C10_either_none_resets (contexto : List (String × String))
    (tipo seletor : String) (frame_disponivel outra_disponivel : Nat → Bool)
    (polls polls2 : Nat) :
    troca_frame (some tipo) none frame_disponivel polls contexto = Except.ok []
    ∧ troca_frame none (some seletor) frame_disponivel polls contexto = Except.ok []
    ∧ troca_frame none none frame_disponivel polls contexto = Except.ok []
    ∧ troca_frame (some tipo) none frame_disponivel polls contexto
        = troca_frame (some tipo) none outra_disponivel polls2 contexto := by
  exact ⟨rfl, rfl, rfl, rfl⟩

/-- Side effects of a `DriverBase` method, in program order: `waitReady` is a
completed `_aguarda_carregamento`, `driverCall` a command issued to the
underlying selenium driver. -/
inductive Event where
  | waitReady
  | driverCall (nome : String)
deriving DecidableEq

/-- Source `acessa_url` (lines 53-55): `self._driver.get(url)` and nothing
else — no readiness wait. -/
def acessa_url_eventos : List Event :=
  [Event.driverCall "driver.get"]

/-- Source `busca_elemento_clicavel` (lines 63-67). -/
def busca_elemento_clicavel_eventos : List Event :=
  [Event.waitReady, Event.driverCall "wait.until(element_to_be_clickable)"]

/-- Source `busca_elemento_visivel` (lines 69-74). -/
def busca_elemento_visivel_eventos : List Event :=
  [Event.waitReady, Event.driverCall "wait.until(visibility_of_element_located)"]

/-- Source `busca_elementos` (lines 76-81). -/
def busca_elementos_eventos : List Event :=
  [Event.waitReady, Event.driverCall "wait.until(presence_of_all_elements_located)"]

/-- Source `aponta_para_elemento` (lines 57-61): wait, resolve the visible
element, then perform the hover action chain. -/
def aponta_para_elemento_eventos : List Event :=
  Event.waitReady :: busca_elemento_visivel_eventos
    ++ [Event.driverCall "ActionChains.move_to_element.perform"]

/-- Source `clica_elemento` (lines 83-88). -/
def clica_elemento_eventos : List Event :=
  Event.waitReady :: busca_elemento_visivel_eventos
    ++ [Event.driverCall "ActionChains.move_to_element.click.perform"]

/-- Source `clica_botao_direito_elemento` (lines 90-99): with a selector kind
the clickable element is resolved first, otherwise the context click happens
at the current mouse position. -/
def clica_botao_direito_elemento_eventos (com_seletor : Bool) : List Event :=
  Event.waitReady ::
    (if com_seletor then
      busca_elemento_clicavel_eventos ++ [Event.driverCall "ActionChains.context_click.perform"]
    else
      [Event.driverCall "ActionChains.context_click.perform"])

/-- Source `insere_opcao_elemento` (lines 101-105). -/
def insere_opcao_elemento_eventos : List Event :=
  Event.waitReady :: busca_elemento_visivel_eventos
    ++ [Event.driverCall "Select.select_by_value"]

/-- Source `insere_texto_elemento` (lines 107-115). -/
def insere_texto_elemento_eventos (enter : Bool) : List Event :=
  Event.waitReady :: busca_elemento_visivel_eventos
    ++ [Event.driverCall "element.clear", Event.driverCall "element.send_keys"]
    ++ (if enter then [Event.driverCall "element.send_keys(ENTER)"] else [])

/-- Source `retorna_atributo_elemento` (lines 117-121). -/
def retorna_atributo_elemento_eventos : List Event :=
  Event.waitReady :: busca_elemento_visivel_eventos
    ++ [Event.driverCall "element.get_attribute"]

/-- Source `retorna_atributo_elementos` (lines 123-145): `n` matched elements,
each read twice by `get_attribute` in the comprehension. -/
def retorna_atributo_elementos_eventos (n : Nat) : List Event :=
  Event.waitReady :: busca_elementos_eventos
    ++ List.replicate (2 * n) (Event.driverCall "element.get_attribute")

/-- Source `retorna_numero_elementos` (lines 147-158). -/
def retorna_numero_elementos_eventos (com_atributo : Bool) (n : Nat) : List Event :=
  Event.waitReady ::
    (if com_atributo then retorna_atributo_elementos_eventos n
     else busca_elementos_eventos)

/-- Source `retorna_texto_elemento` (lines 160-163). -/
def retorna_texto_elemento_eventos : List Event :=
  Event.waitReady :: busca_elemento_visivel_eventos ++ [Event.driverCall "element.text"]

/-- Source `retorna_texto_elementos` (lines 165-187): `n` matched elements,
each with its `.text` read twice by the comprehension. -/
def retorna_texto_elementos_eventos (n : Nat) : List Event :=
  Event.waitReady :: busca_elementos_eventos
    ++ List.replicate (2 * n) (Event.driverCall "element.text")

/-- Source `troca_frame` (lines 189-198): `ambos` tells whether both selector
arguments are non-`None`. -/
def troca_frame_eventos (ambos : Bool) : List Event :=
  Event.waitReady ::
    (if ambos then [Event.driverCall "wait.until(frame_to_be_available_and_switch_to_it)"]
     else [Event.driverCall "driver.switch_to_default_content"])

/-- Holds when a method's first side effect is a completed readiness wait, so
no driver command precedes the wait. -/
def esperaAntesDoDriver : List Event → Bool
  | [] => true
  | Event.waitReady :: _ => true
  | Event.driverCall _ :: _ => false

/-- C2 counterexample: the public operation `acessa_url` (navigate) issues its
driver command with no readiness wait at all, so "every public operation
first performs the page-readiness wait before issuing any driver call" is
false for the program. -/
theorem C2_navigate_counterexample :
    acessa_url_eventos = [Event.driverCall "driver.get"]
    ∧ esperaAntesDoDriver acessa_url_eventos = false
    ∧ Event.waitReady ∉ acessa_url_eventos := by
  refine ⟨rfl, rfl, by decide⟩

/-- C2 (amended): every public operation of the session except `acessa_url`
(navigate) performs the readiness wait before issuing any driver call;
`acessa_url` issues `driver.get` without any readiness wait. -/
theorem C2_wait_precedes_driver (com_seletor enter com_atributo ambos : Bool) (n : Nat) :
    esperaAntesDoDriver aponta_para_elemento_eventos = true
    ∧ esperaAntesDoDriver busca_elemento_clicavel_eventos = true
    ∧ esperaAntesDoDriver busca_elemento_visivel_eventos = true
    ∧ esperaAntesDoDriver busca_elementos_eventos = true
    ∧ esperaAntesDoDriver clica_elemento_eventos = true
    ∧ esperaAntesDoDriver (clica_botao_direito_elemento_eventos com_seletor) = true
    ∧ esperaAntesDoDriver insere_opcao_elemento_eventos = true
    ∧ esperaAntesDoDriver (insere_texto_elemento_eventos enter) = true
    ∧ esperaAntesDoDriver retorna_atributo_elemento_eventos = true
    ∧ esperaAntesDoDriver (retorna_atributo_elementos_eventos n) = true
    ∧ esperaAntesDoDriver (retorna_numero_elementos_eventos com_atributo n) = true
    ∧ esperaAntesDoDriver retorna_texto_elemento_eventos = true
    ∧ esperaAntesDoDriver (retorna_texto_elementos_eventos n) = true
    ∧ esperaAntesDoDriver (troca_frame_eventos ambos) = true
    ∧ Event.waitReady ∉ acessa_url_eventos := by
  refine ⟨rfl, rfl, rfl, rfl, rfl, rfl, rfl, rfl, rfl, rfl, rfl, rfl, rfl, rfl, by decide⟩
